import Mathlib

/-
  Verification of the cloudstash Manager against its sources.

  Shallow embedding of:
  - the sqlite catalog client (package sqlite in the repository),
  - the legacy catalog client src/internal/db/client.go (package db),
  - catalog discovery (findDBDrive in package main),
  - the drive abstraction src/internal/drive/drive.go (GetURL, lock constants).

  Machine integers are modelled as Int/Nat (no overflow is relevant to any
  claim); fallible Go functions return Except; *sql.DB tables are modelled as
  lists of rows in schema column order.
-/

/-! ## Errors

Errors returned by the catalog clients and drives.
`notFound` embeds common.ErrNotFound (the common package itself is not under
src; the sentinel is referenced by all three source files).
`conflict` is modelled from the spec: the spec names a CONFLICT error kind for
uniqueness violations; no constructor for it appears in the sources under src.
`queryError` embeds the generic errors built with fmt.Errorf in the clients. -/
inductive DbErr
  | notFound
  | conflict
  | queryError (msg : String)
deriving DecidableEq, Repr

/-! ## SQL parameter binding

Both catalog clients prepare the statement
  SELECT * FROM files WHERE name=? and parent=?
and bind two driver arguments positionally.  A bound argument is either a Go
integer or a Go string. -/
inductive SqlValue
  | int (i : Int)
  | text (s : String)
deriving DecidableEq, Repr

/-- Comparison of a bound value against the TEXT-affinity column `name`:
SQLite applies TEXT affinity to a numeric operand compared against a TEXT
column, so an integer argument is compared via its decimal rendering. -/
def matchesNameCol (v : SqlValue) (stored : String) : Bool :=
  match v with
  | .text s => s = stored
  | .int i => toString i = stored

/-- Comparison of a bound value against the INTEGER-affinity column `parent`:
SQLite applies NUMERIC affinity to a text operand compared against an INTEGER
column, so a string argument matches only if it reads as that integer. -/
def matchesParentCol (v : SqlValue) (stored : Int) : Bool :=
  match v with
  | .int i => i = stored
  | .text s => s.toInt? = some stored

/-- Row-selection predicate of `SELECT * FROM files WHERE name=? and parent=?`
given the two positionally bound arguments (first placeholder is the one in
name=?, second the one in parent=?). -/
def searchWhere (args : List SqlValue) (storedName : String) (storedParent : Int) : Bool :=
  match args with
  | [v1, v2] => matchesNameCol v1 storedName && matchesParentCol v2 storedParent
  | _ => false

/-- Argument binding of the sqlite client Search: `query.Query(name, parent)`. -/
def sqliteSearchArgs (parent : Int) (name : String) : List SqlValue :=
  [.text name, .int parent]

/-- Argument binding of the db client Search (src/internal/db/client.go):
`query.QueryRow(parent, name)`. -/
def dbSearchArgs (parent : Int) (name : String) : List SqlValue :=
  [.int parent, .text name]

/-! ## The sqlite catalog client (package sqlite) -/

namespace sqlite

/-- Integer code for a file row; common.DrvFile.  Modelled from the spec:
the common package is not under src, the spec describes type as an enumerated
FILE or FOLDER code. -/
def DrvFile : Int := 0

/-- Integer code for a folder row; common.DrvFolder.  Modelled from the spec,
as for DrvFile; only distinctness from DrvFile matters. -/
def DrvFolder : Int := 1

/-- One row of the sqlite client table
files(inode, name, url, size, mode, parent, type, hash), fields in schema
column order. -/
structure Row where
  inode : Int
  name : String
  url : String
  size : Int
  mode : Int
  parent : Int
  ftype : Int
  hash : String
deriving DecidableEq, Repr

/-- The sqlite client Metadata struct: Inode, Name, URL, Size, Mode, Parent,
Type, Hash, NLink. -/
structure Metadata where
  inode : Int
  name : String
  url : String
  size : Int
  mode : Int
  parent : Int
  ftype : Int
  hash : String
  nlink : Int
deriving DecidableEq, Repr

/-- The files table. -/
abbrev Table := List Row

/-- parseRow of the sqlite client: scans the selected columns, in schema order
(inode, name, url, size, mode, parent, type, hash), into the destinations
(&md.Inode, &md.Name, &md.URL, &md.Size, &md.Mode, &md.Parent, &md.Type,
&md.Hash); NLink is left at the Go zero value. -/
def parseRow (r : Row) : Metadata :=
  { inode := r.inode, name := r.name, url := r.url, size := r.size,
    mode := r.mode, parent := r.parent, ftype := r.ftype, hash := r.hash,
    nlink := 0 }

/-- Number of rows with given parent and type folder, as counted by the query
SELECT COUNT(*) FROM files WHERE parent=? and type=? bound with
(md.Inode, common.DrvFolder). -/
def childFolderCount (tbl : Table) (inode : Int) : Nat :=
  (tbl.filter (fun r => r.parent = inode && r.ftype = DrvFolder)).length

/-- fillNLink of the sqlite client: files get NLink 1; otherwise NLink is the
child-folder count plus 2. -/
def fillNLink (tbl : Table) (md : Metadata) : Metadata :=
  if md.ftype = DrvFile then { md with nlink := 1 }
  else { md with nlink := (childFolderCount tbl md.inode : Int) + 2 }

/-- Search of the sqlite client: SELECT * FROM files WHERE name=? and parent=?
executed with Query(name, parent); the first resulting row is parsed, no row
yields common.ErrNotFound.  Search does not call fillNLink. -/
def Search (tbl : Table) (parent : Int) (name : String) : Except DbErr Metadata :=
  match tbl.find? (fun r => searchWhere (sqliteSearchArgs parent name) r.name r.parent) with
  | some r => .ok (parseRow r)
  | none => .error .notFound

/-- Get of the sqlite client: SELECT * FROM files WHERE inode=?; no row yields
common.ErrNotFound, otherwise the row is parsed and fillNLink is applied. -/
def Get (tbl : Table) (inode : Int) : Except DbErr Metadata :=
  match tbl.find? (fun r => r.inode = inode) with
  | some r => .ok (fillNLink tbl (parseRow r))
  | none => .error .notFound

/-- GetChildren of the sqlite client: SELECT * FROM files WHERE parent=?; every
row is parsed and fillNLink is applied.  An empty result is returned as an
empty list, not an error. -/
def GetChildren (tbl : Table) (parent : Int) : Except DbErr (List Metadata) :=
  .ok ((tbl.filter (fun r => r.parent = parent)).map (fun r => fillNLink tbl (parseRow r)))

/-- Next inode assigned by SQLite AUTOINCREMENT: one more than the largest
inode in the table. -/
def nextInode (tbl : Table) : Int :=
  (tbl.foldr (fun r acc => max r.inode acc) 0) + 1

/-- The UNIQUE("name", "parent") constraint check performed by SQLite on
insert. -/
def hasDup (tbl : Table) (name : String) (parent : Int) : Bool :=
  tbl.any (fun r => r.name = name && r.parent = parent)

/-- AddDirectory of the sqlite client: INSERT INTO files(name, mode, parent,
type) VALUES(?, ?, ?, ?) with type common.DrvFolder; a uniqueness violation
from the driver is wrapped by fmt.Errorf into a generic error.  On success the
fresh row is selected back by (name, parent) and returned with NLink set to 2
unconditionally. -/
def AddDirectory (tbl : Table) (parent : Int) (name : String) (mode : Int) :
    Except DbErr (Table × Metadata) :=
  if hasDup tbl name parent then
    .error (.queryError "couldnt insert directory: UNIQUE constraint failed")
  else
    let r : Row := { inode := nextInode tbl, name := name, url := "", size := 0,
                     mode := mode, parent := parent, ftype := DrvFolder, hash := "" }
    let md := parseRow r
    .ok (tbl ++ [r], { md with nlink := 2 })

/-- CreateFile of the sqlite client: INSERT INTO files(name, url, size, mode,
parent, type, hash) VALUES(?, ?, ?, ?, ?, ?, ?) with size 0 and type
common.DrvFile; a uniqueness violation is wrapped by fmt.Errorf into a generic
error.  On success the fresh row is selected back and returned with NLink set
to 1. -/
def CreateFile (tbl : Table) (parent : Int) (name : String) (mode : Int)
    (url : String) (hash : String) : Except DbErr (Table × Metadata) :=
  if hasDup tbl name parent then
    .error (.queryError "couldnt insert file: UNIQUE constraint failed")
  else
    let r : Row := { inode := nextInode tbl, name := name, url := url, size := 0,
                     mode := mode, parent := parent, ftype := DrvFile, hash := hash }
    let md := parseRow r
    .ok (tbl ++ [r], { md with nlink := 1 })

/-- Insert of the sqlite client: INSERT INTO files(name, url, size, mode,
parent, type, hash) from a Metadata value; a uniqueness violation is wrapped by
fmt.Errorf into a generic error. -/
def Insert (tbl : Table) (md : Metadata) : Except DbErr Table :=
  if hasDup tbl md.name md.parent then
    .error (.queryError "couldnt insert file: UNIQUE constraint failed")
  else
    .ok (tbl ++ [{ inode := nextInode tbl, name := md.name, url := md.url,
                   size := md.size, mode := md.mode, parent := md.parent,
                   ftype := md.ftype, hash := md.hash }])

/-- Execution of a prepared statement through database/sql: the statement has
`placeholders` parameter markers and is executed with the bound argument list
`args`; the sqlite3 driver refuses the call when the counts differ. -/
def execPrepared (placeholders : Nat) (args : List SqlValue)
    (run : List SqlValue → α) : Except DbErr α :=
  if args.length = placeholders then .ok (run args)
  else .error (.queryError "not enough args to execute query")

/-- What a LIMIT/OFFSET query over files would return were its two arguments
actually bound. -/
def takeDropRows (tbl : Table) (limit offset : Int) : List Metadata :=
  ((tbl.drop offset.toNat).take limit.toNat).map (fun r => fillNLink tbl (parseRow r))

/-- GetRows of the sqlite client: SELECT * FROM files LIMIT ? OFFSET ? is
prepared (two placeholders) but executed with query.Query() and no bound
arguments; limit and offset are never supplied. -/
def GetRows (tbl : Table) (limit : Int) (offset : Int) :
    Except DbErr (List Metadata) :=
  execPrepared 2 [] (fun _ => takeDropRows tbl limit offset)

end sqlite

/-! ## The legacy catalog client src/internal/db/client.go (package db) -/

namespace db

/-- Integer code common.DRV_FOLDER of the legacy client.  Modelled from the
spec: the common package is not under src; the spec describes type as an
enumerated FILE or FOLDER code. -/
def DRV_FOLDER : Int := 1

/-- One row of the legacy client table
files(inode, name, url, size, mode, parent, type), fields in schema column
order; this schema has no hash column. -/
structure Row where
  inode : Int
  name : String
  url : String
  size : Int
  mode : Int
  parent : Int
  ftype : Int
deriving DecidableEq, Repr

/-- The legacy common.Metadata struct, fields in Go declaration order:
Inode, Name, URL, Size, Mode, Type, Parent, NLink. -/
structure Metadata where
  inode : Int
  name : String
  url : String
  size : Int
  mode : Int
  ftype : Int
  parent : Int
  nlink : Int
deriving DecidableEq, Repr

/-- The files table of the legacy client. -/
abbrev Table := List Row

/-- parseRow of the legacy client: the selected columns arrive in schema order
(inode, name, url, size, mode, parent, type) and are scanned positionally into
the destinations (&md.Inode, &md.Name, &md.URL, &md.Size, &md.Mode, &md.Type,
&md.Parent): the sixth column (parent) lands in the Type field and the seventh
column (type) lands in the Parent field. -/
def parseRow (r : Row) : Metadata :=
  { inode := r.inode, name := r.name, url := r.url, size := r.size,
    mode := r.mode, ftype := r.parent, parent := r.ftype, nlink := 0 }

/-- Search of the legacy client: SELECT * FROM files WHERE name=? and parent=?
executed with QueryRow(parent, name); a scan hitting sql.ErrNoRows yields
common.ErrNotFound. -/
def Search (tbl : Table) (parent : Int) (name : String) : Except DbErr Metadata :=
  match tbl.find? (fun r => searchWhere (dbSearchArgs parent name) r.name r.parent) with
  | some r => .ok (parseRow r)
  | none => .error .notFound

/-- Get of the legacy client: SELECT * FROM files WHERE inode=?; a scan hitting
sql.ErrNoRows yields common.ErrNotFound. -/
def Get (tbl : Table) (inode : Int) : Except DbErr Metadata :=
  match tbl.find? (fun r => r.inode = inode) with
  | some r => .ok (parseRow r)
  | none => .error .notFound

end db

/-! ## Schemas and InitDB -/

/-- One column of a CREATE TABLE statement: name, declared type, optional
DEFAULT literal, and whether it is INTEGER PRIMARY KEY AUTOINCREMENT. -/
structure ColumnSpec where
  colName : String
  colType : String
  dflt : Option String
  pkAutoinc : Bool
deriving DecidableEq, Repr

/-- A table schema: name, columns in declaration order, and the column list of
the UNIQUE constraint. -/
structure TableSpec where
  tabName : String
  cols : List ColumnSpec
  uniqueCols : List String
deriving DecidableEq, Repr

/-- The files table created by InitDB of the sqlite client (tableSchemas in
package sqlite): eight columns including hash, UNIQUE("name", "parent"). -/
def sqliteFilesSchema : TableSpec :=
  { tabName := "files",
    cols := [
      { colName := "inode", colType := "INTEGER", dflt := none, pkAutoinc := true },
      { colName := "name", colType := "TEXT", dflt := none, pkAutoinc := false },
      { colName := "url", colType := "TEXT", dflt := some "", pkAutoinc := false },
      { colName := "size", colType := "INTEGER", dflt := some "0", pkAutoinc := false },
      { colName := "mode", colType := "INTEGER", dflt := none, pkAutoinc := false },
      { colName := "parent", colType := "INTEGER", dflt := none, pkAutoinc := false },
      { colName := "type", colType := "INTEGER", dflt := none, pkAutoinc := false },
      { colName := "hash", colType := "TEXT", dflt := some "", pkAutoinc := false }],
    uniqueCols := ["name", "parent"] }

/-- The root row inserted by InitDB of the sqlite client:
INSERT INTO files(inode, name, mode, parent, type) VALUES (1, "", 493, 0,
common.DrvFolder); url, size and hash take their column defaults. -/
def sqliteRootRow : sqlite.Row :=
  { inode := 1, name := "", url := "", size := 0, mode := 493, parent := 0,
    ftype := sqlite.DrvFolder, hash := "" }

/-- Database contents after InitDB of the sqlite client runs on a fresh path:
the schemas in tableSchemas executed in order. -/
def sqliteInitDB : TableSpec × List sqlite.Row :=
  (sqliteFilesSchema, [sqliteRootRow])

/-- The files table created by InitDB of the legacy client (tableSchemas in
src/internal/db/client.go): seven columns, no hash column. -/
def dbFilesSchema : TableSpec :=
  { tabName := "files",
    cols := [
      { colName := "inode", colType := "INTEGER", dflt := none, pkAutoinc := true },
      { colName := "name", colType := "TEXT", dflt := none, pkAutoinc := false },
      { colName := "url", colType := "TEXT", dflt := some "", pkAutoinc := false },
      { colName := "size", colType := "INTEGER", dflt := some "0", pkAutoinc := false },
      { colName := "mode", colType := "INTEGER", dflt := none, pkAutoinc := false },
      { colName := "parent", colType := "INTEGER", dflt := none, pkAutoinc := false },
      { colName := "type", colType := "INTEGER", dflt := none, pkAutoinc := false }],
    uniqueCols := ["name", "parent"] }

/-- The root row inserted by InitDB of the legacy client:
INSERT INTO files(inode, name, mode, parent, type) VALUES (1, "", 493, 1,
common.DRV_FOLDER); note parent is 1, not 0. -/
def dbRootRow : db.Row :=
  { inode := 1, name := "", url := "", size := 0, mode := 493, parent := 1,
    ftype := db.DRV_FOLDER }

/-- Database contents after InitDB of the legacy client runs on a fresh
path. -/
def dbInitDB : TableSpec × List db.Row :=
  (dbFilesSchema, [dbRootRow])

/-! ## Catalog discovery (findDBDrive in package main) -/

/-- A remote object as seen by a backend, with the backend-side modification
time used by the notion of the newest copy. -/
structure RemoteFile where
  rname : String
  rsize : Nat
  rhash : String
  rmtime : Nat
deriving DecidableEq, Repr

/-- A backend drive: provider name, its remote objects, and whether it is
reachable (an unreachable drive fails with a non-NOT_FOUND error). -/
structure DriveModel where
  providerName : String
  files : List RemoteFile
  reachable : Bool
deriving DecidableEq, Repr

/-- GetFileMetadata of a drive: the metadata of the named remote object, or
common.ErrNotFound when the object is absent. -/
def GetFileMetadata (d : DriveModel) (fname : String) : Except DbErr RemoteFile :=
  if d.reachable = false then .error (.queryError "network error")
  else
    match d.files.find? (fun f => f.rname = fname) with
    | some f => .ok f
    | none => .error .notFound

/-- Modelled from the spec: common.DatabaseFileName is declared in the common
package, which is not under src; the spec names the catalog object
cloudstash.db. -/
def DatabaseFileName : String := "cloudstash.db"

/-- Whether a drive holds the catalog object. -/
def holdsDB (d : DriveModel) : Bool :=
  d.files.any (fun f => f.rname = DatabaseFileName)

/-- findDBDrive of package main: probes the drives in order for
common.DatabaseFileName; a NOT_FOUND probe moves on to the next drive, any
other probe error aborts, a successful probe returns that drive at once, and
an exhausted list yields common.ErrNotFound. -/
def findDBDrive : List DriveModel → Except DbErr DriveModel
  | [] => .error .notFound
  | d :: rest =>
    match GetFileMetadata d DatabaseFileName with
    | .ok _ => .ok d
    | .error .notFound => findDBDrive rest
    | .error _ => .error (.queryError "couldnt get database file metadata")

/-- Backend-side modification time of the catalog object on a drive (0 when
absent). -/
def dbMTime (d : DriveModel) : Nat :=
  match d.files.find? (fun f => f.rname = DatabaseFileName) with
  | some f => f.rmtime
  | none => 0

/-! ## Drive abstraction: src/internal/drive/drive.go -/

namespace drive

/-- The lockFile constant. -/
def lockFile : String := "cloudstash.lock"

/-- One minute as a Go time.Duration, in nanoseconds. -/
def timeMinute : Nat := 60 * 1000000000

/-- The lockTimeout constant: 5 * time.Minute. -/
def lockTimeout : Nat := 5 * timeMinute

/-- Remote actions taken by the lock protocol. -/
inductive LockAct
  | create
  | del
  | poll
deriving DecidableEq, Repr

/-- Modelled from the spec: the Lock implementations (the per-provider
adapters) are not under src, only the Drive interface and its documented
contract are.  The protocol is driven by successive observations of whether
the lock object is present; `elapsed` is the waiting time accumulated since
the last (re)start of the protocol.  An absent lock is created and the lock is
acquired; a present lock within the timeout is polled again after `interval`;
a present lock at or past the timeout is deleted and the protocol restarts
with elapsed reset to 0. -/
def lockLoop (interval : Nat) : List Bool → Nat → List LockAct × Bool
  | [], _ => ([], false)
  | present :: rest, elapsed =>
    if present = false then ([LockAct.create], true)
    else if lockTimeout ≤ elapsed then
      let p := lockLoop interval rest 0
      (LockAct.del :: p.1, p.2)
    else
      let p := lockLoop interval rest (elapsed + interval)
      (LockAct.poll :: p.1, p.2)

/-- Modelled from the spec: Lock starts the protocol with no elapsed waiting
time. -/
def Lock (interval : Nat) (obs : List Bool) : List LockAct × Bool :=
  lockLoop interval obs 0

/-- Modelled from the spec: Unlock removes the lock object from the remote
drive unconditionally, whatever its current presence. -/
def Unlock (_present : Bool) : Bool × List LockAct :=
  (false, [LockAct.del])

/-- GetURL of src/internal/drive/drive.go: the provider name as scheme,
"://", then the object name; name[0] is read unguarded, so the empty name hits
the out-of-bounds branch, and a single leading slash is dropped. -/
def GetURL (provider : String) (name : List Char) : Option String :=
  match name with
  | [] => none
  | c :: rest =>
    some (provider ++ "://" ++ String.mk (if c = '/' then rest else c :: rest))

end drive

/-! ## Spec-side definitions used for refinement comparisons -/

/-- Written from the claim wording: the object name with a single leading
slash removed if present. -/
def specStripSlash (name : List Char) : List Char :=
  match name with
  | [] => []
  | c :: rest => if c = '/' then rest else c :: rest

/-! ## Theorems -/

/-- Claim C9: for every drive and every non-empty object name, GetURL returns
provider ++ "://" ++ the object name with a single leading slash removed if
present. -/
theorem c9_geturl_scheme (provider : String) (name : List Char) (h : name ≠ []) :
    drive.GetURL provider name =
      some (provider ++ "://" ++ String.mk (specStripSlash name)) := by
  cases name with
  | nil => exact absurd rfl h
  | cons c rest => simp [drive.GetURL, specStripSlash]

/-- Witness for C9 at provider "dropbox" and name "/f.bin". -/
theorem c9_witness :
    (['/', 'f', '.', 'b', 'i', 'n'] : List Char) ≠ [] ∧
    drive.GetURL "dropbox" ['/', 'f', '.', 'b', 'i', 'n'] =
      some ("dropbox" ++ "://" ++ String.mk (specStripSlash ['/', 'f', '.', 'b', 'i', 'n'])) :=
  ⟨by decide, c9_geturl_scheme "dropbox" ['/', 'f', '.', 'b', 'i', 'n'] (by decide)⟩

/-- Claim C10: GetURL reads name[0] unguarded, so the empty object name hits
the out-of-bounds branch of the embedding, while every non-empty name is in
bounds and GetURL is well defined. -/
theorem c10_geturl_empty_out_of_bounds :
    (∀ provider : String, drive.GetURL provider [] = none) ∧
    (∀ (provider : String) (name : List Char), name ≠ [] →
        (drive.GetURL provider name).isSome = true) := by
  refine ⟨fun provider => rfl, fun provider name h => ?_⟩
  cases name with
  | nil => exact absurd rfl h
  | cons c rest => simp [drive.GetURL]

/-- Witness for C10 at provider "gdrive" and name "a". -/
theorem c10_witness :
    (['a'] : List Char) ≠ [] ∧ (drive.GetURL "gdrive" ['a']).isSome = true :=
  ⟨by decide, c10_geturl_empty_out_of_bounds.2 "gdrive" ['a'] (by decide)⟩

/-- Claim C7: for every limit and offset, GetRows of the sqlite client returns
an error and never a list of rows: the statement carries the two LIMIT/OFFSET
placeholders but is executed with no bound arguments. -/
theorem c7_getrows_always_errors (tbl : sqlite.Table) (limit offset : Int) :
    sqlite.GetRows tbl limit offset =
      .error (.queryError "not enough args to execute query") := rfl

/-- Claim C8: the remote lock object is cloudstash.lock, the timeout constant
is 5 minutes; Lock creates the lock object when it is absent, polls while it
is present within the timeout, on exceeding the timeout deletes the lock
itself and restarts the protocol from the beginning with its waiting time
reset, and Unlock unconditionally deletes the lock object. -/
theorem c8_lock_protocol :
    drive.lockFile = "cloudstash.lock" ∧
    drive.lockTimeout = 300 * 1000000000 ∧
    (∀ (interval : Nat) (rest : List Bool),
        drive.Lock interval (false :: rest) = ([drive.LockAct.create], true)) ∧
    (∀ (interval : Nat) (rest : List Bool) (elapsed : Nat),
        elapsed < drive.lockTimeout →
        drive.lockLoop interval (true :: rest) elapsed =
          (drive.LockAct.poll :: (drive.lockLoop interval rest (elapsed + interval)).1,
           (drive.lockLoop interval rest (elapsed + interval)).2)) ∧
    (∀ (interval : Nat) (rest : List Bool) (elapsed : Nat),
        drive.lockTimeout ≤ elapsed →
        drive.lockLoop interval (true :: rest) elapsed =
          (drive.LockAct.del :: (drive.lockLoop interval rest 0).1,
           (drive.lockLoop interval rest 0).2)) ∧
    (∀ present : Bool, drive.Unlock present = (false, [drive.LockAct.del])) := by
  refine ⟨rfl, by decide, fun interval rest => rfl, ?_, ?_, fun present => rfl⟩
  · intro interval rest elapsed h
    simp [drive.lockLoop, Nat.not_le.mpr h]
  · intro interval rest elapsed h
    simp [drive.lockLoop, h]

/-- Witness for C8: one poll step below the timeout and one delete-and-restart
step at the timeout, on concrete observation lists. -/
theorem c8_witness :
    (0 : Nat) < drive.lockTimeout ∧
    drive.lockLoop 1 (true :: [false]) 0 =
      (drive.LockAct.poll :: (drive.lockLoop 1 [false] (0 + 1)).1,
       (drive.lockLoop 1 [false] (0 + 1)).2) ∧
    drive.lockTimeout ≤ drive.lockTimeout ∧
    drive.lockLoop 1 (true :: [false]) drive.lockTimeout =
      (drive.LockAct.del :: (drive.lockLoop 1 [false] 0).1,
       (drive.lockLoop 1 [false] 0).2) :=
  ⟨by decide, c8_lock_protocol.2.2.2.1 1 [false] 0 (by decide),
   Nat.le_refl _, c8_lock_protocol.2.2.2.2.1 1 [false] drive.lockTimeout (Nat.le_refl _)⟩

/-- Row selection behaviour of the sqlite client Search on the (name, parent)
columns, given the Go-level arguments. -/
def sqliteSearchSelects (parent : Int) (name : String)
    (storedName : String) (storedParent : Int) : Bool :=
  searchWhere (sqliteSearchArgs parent name) storedName storedParent

/-- Row selection behaviour of the legacy client Search on the (name, parent)
columns, given the Go-level arguments. -/
def dbSearchSelects (parent : Int) (name : String)
    (storedName : String) (storedParent : Int) : Bool :=
  searchWhere (dbSearchArgs parent name) storedName storedParent

/-- Written from the claim wording: a Search following the canonical
(parent INTEGER, name TEXT) order returns the first row whose name column
equals name and whose parent column equals parent, and NOT_FOUND when no row
matches. -/
def canonicalSearch (tbl : sqlite.Table) (parent : Int) (name : String) :
    Except DbErr sqlite.Metadata :=
  match tbl.find? (fun r => decide (r.name = name) && decide (r.parent = parent)) with
  | some r => .ok (sqlite.parseRow r)
  | none => .error .notFound

/-- find? only depends on the pointwise behaviour of its predicate. -/
theorem find_ext {α : Type} (p q : α → Bool) (h : ∀ a, p a = q a) :
    ∀ l : List α, l.find? p = l.find? q := by
  intro l
  induction l with
  | nil => rfl
  | cons a t ih => simp only [List.find?]; rw [h a, ih]

/-- A row used to separate the two Search implementations: name "a" under
parent 2. -/
def c1Row : sqlite.Row :=
  { inode := 7, name := "a", url := "", size := 0, mode := 420, parent := 2,
    ftype := sqlite.DrvFile, hash := "h" }

/-- The same row in the legacy client table (which has no hash column). -/
def c1DbRow : db.Row :=
  { inode := 7, name := "a", url := "", size := 0, mode := 420, parent := 2,
    ftype := db.DRV_FOLDER }

/-- Claim C1: the two Search implementations bind (parent, name) in opposite
order: the sqlite client binds Query(name, parent), so the name placeholder
receives name and the parent placeholder receives parent (the canonical
order), while the legacy client binds QueryRow(parent, name), so parent lands
in the name placeholder and name in the parent placeholder; the sqlite Search
coincides with the canonical Search, the two selection behaviours differ on a
concrete row, and the legacy Search misses a stored (parent=2, name="a") row
that the sqlite Search finds. -/
theorem c1_search_binding_order :
    (∀ (parent : Int) (name : String),
        sqliteSearchArgs parent name = [SqlValue.text name, SqlValue.int parent]) ∧
    (∀ (parent : Int) (name : String),
        dbSearchArgs parent name = [SqlValue.int parent, SqlValue.text name]) ∧
    (∀ (tbl : sqlite.Table) (parent : Int) (name : String),
        sqlite.Search tbl parent name = canonicalSearch tbl parent name) ∧
    (∀ (parent : Int) (name storedName : String) (storedParent : Int),
        sqliteSearchSelects parent name storedName storedParent =
          (decide (storedName = name) && decide (storedParent = parent))) ∧
    sqliteSearchSelects 2 "a" "a" 2 = true ∧
    dbSearchSelects 2 "a" "a" 2 = false ∧
    sqlite.Search [c1Row] 2 "a" = .ok (sqlite.parseRow c1Row) ∧
    db.Search [c1DbRow] 2 "a" = .error .notFound := by
  refine ⟨fun parent name => rfl, fun parent name => rfl, ?_, ?_, by decide, by decide,
    rfl, rfl⟩
  · intro tbl parent name
    unfold sqlite.Search canonicalSearch
    rw [find_ext
      (fun r => searchWhere (sqliteSearchArgs parent name) r.name r.parent)
      (fun r => decide (r.name = name) && decide (r.parent = parent))
      (fun r => by
        simp [searchWhere, sqliteSearchArgs, matchesNameCol, matchesParentCol, eq_comm])
      tbl]
  · intro parent name storedName storedParent
    simp [sqliteSearchSelects, searchWhere, sqliteSearchArgs, matchesNameCol,
      matchesParentCol, eq_comm]

/-- Written from the claim wording: the one table the claim says InitDB
creates, files(inode INTEGER PRIMARY KEY AUTOINCREMENT, name TEXT, url TEXT
DEFAULT "", size INTEGER DEFAULT 0, mode INTEGER, parent INTEGER, type
INTEGER, hash TEXT DEFAULT "", UNIQUE(name, parent)). -/
def claimFilesSchema : TableSpec :=
  { tabName := "files",
    cols := [
      { colName := "inode", colType := "INTEGER", dflt := none, pkAutoinc := true },
      { colName := "name", colType := "TEXT", dflt := none, pkAutoinc := false },
      { colName := "url", colType := "TEXT", dflt := some "", pkAutoinc := false },
      { colName := "size", colType := "INTEGER", dflt := some "0", pkAutoinc := false },
      { colName := "mode", colType := "INTEGER", dflt := none, pkAutoinc := false },
      { colName := "parent", colType := "INTEGER", dflt := none, pkAutoinc := false },
      { colName := "type", colType := "INTEGER", dflt := none, pkAutoinc := false },
      { colName := "hash", colType := "TEXT", dflt := some "", pkAutoinc := false }],
    uniqueCols := ["name", "parent"] }

/-- Written from the claim wording: the one root row the claim says InitDB
inserts, inode 1, empty name, parent 0, mode 493, type FOLDER; url, size and
hash take the column defaults. -/
def claimRootRow : sqlite.Row :=
  { inode := 1, name := "", url := "", size := 0, mode := 493, parent := 0,
    ftype := sqlite.DrvFolder, hash := "" }

/-- Counterexample for claim C2 as stated: the claim covers both InitDB
implementations, but for the legacy client (src/internal/db/client.go) the
created schema is not the claimed eight-column schema (it has no hash column)
and the inserted root row has parent 1, not 0.  The claimed property, decided
on the legacy InitDB output, is false. -/
theorem c2_counterexample :
    dbInitDB = (dbFilesSchema, [dbRootRow]) ∧
    decide (dbInitDB.1 = claimFilesSchema ∧ dbInitDB.2 = [dbRootRow] ∧
      dbRootRow.parent = 0) = false ∧
    decide ((dbInitDB.1.cols.map ColumnSpec.colName).contains "hash") = false ∧
    dbRootRow.parent = 1 := by
  refine ⟨rfl, by decide, by decide, rfl⟩

/-- The claimed root row restated over the legacy seven-column row type. -/
def claimRoot7 : db.Row :=
  { inode := 1, name := "", url := "", size := 0, mode := 493, parent := 0,
    ftype := db.DRV_FOLDER }

/-- Claim C2 as amended: the sqlite client InitDB creates exactly the claimed
files table and exactly the claimed root row (inode 1, empty name, parent 0,
mode 493, type FOLDER); the legacy client InitDB creates the same table
without the hash column and inserts the root row with parent 1 instead of 0,
everything else equal. -/
theorem c2_initdb_contents :
    sqliteInitDB = (claimFilesSchema, [claimRootRow]) ∧
    dbInitDB.1.tabName = claimFilesSchema.tabName ∧
    dbInitDB.1.cols = claimFilesSchema.cols.take 7 ∧
    dbInitDB.1.uniqueCols = claimFilesSchema.uniqueCols ∧
    dbInitDB.2 = [{ claimRoot7 with parent := 1 }] := by
  refine ⟨by decide, rfl, by decide, rfl, by decide⟩

/-- A legacy-client row whose stored parent and type codes coincide (both 5):
on such a row the field swap of parseRow is invisible. -/
def c4Row : db.Row :=
  { inode := 1, name := "x", url := "", size := 0, mode := 420, parent := 5,
    ftype := 5 }

/-- Counterexample for claim C4 as stated: the claim says that for every row
in the table, Get(inode) does not return the stored (parent, type) pair in the
corresponding fields; on a row whose stored parent equals its stored type code
the swapped fields reproduce the stored pair exactly. -/
theorem c4_counterexample :
    db.Get [c4Row] 1 = .ok (db.parseRow c4Row) ∧
    (db.parseRow c4Row).parent = c4Row.parent ∧
    (db.parseRow c4Row).ftype = c4Row.ftype := by
  refine ⟨rfl, rfl, rfl⟩

/-- Claim C4 as amended: the legacy parseRow scans the columns, which the
schema orders as (inode, name, url, size, mode, parent, type), into the fields
Inode, Name, URL, Size, Mode, Type, Parent in that order, so every metadata
value it produces (hence everything returned by this client Search and Get)
carries the stored parent in its Type field and the stored type in its Parent
field; consequently a Get result disagrees with the stored (parent, type) pair
precisely on the rows whose stored parent differs from their stored type
code. -/
theorem c4_parserow_swap :
    (∀ r : db.Row,
        (db.parseRow r).ftype = r.parent ∧ (db.parseRow r).parent = r.ftype ∧
        (db.parseRow r).inode = r.inode ∧ (db.parseRow r).name = r.name ∧
        (db.parseRow r).url = r.url ∧ (db.parseRow r).size = r.size ∧
        (db.parseRow r).mode = r.mode) ∧
    (∀ (tbl : db.Table) (i : Int) (md : db.Metadata),
        db.Get tbl i = .ok md →
        ∃ r, tbl.find? (fun r => r.inode = i) = some r ∧
          md.ftype = r.parent ∧ md.parent = r.ftype) ∧
    (∀ (tbl : db.Table) (parent : Int) (name : String) (md : db.Metadata),
        db.Search tbl parent name = .ok md →
        ∃ r, md = db.parseRow r ∧ md.ftype = r.parent ∧ md.parent = r.ftype) ∧
    (∀ r : db.Row, r.parent ≠ r.ftype → (db.parseRow r).parent ≠ r.parent) := by
  refine ⟨fun r => ⟨rfl, rfl, rfl, rfl, rfl, rfl, rfl⟩, ?_, ?_, ?_⟩
  · intro tbl i md h
    unfold db.Get at h
    cases hfind : tbl.find? (fun r => decide (r.inode = i)) with
    | none => rw [hfind] at h; exact absurd h (by simp)
    | some r =>
      rw [hfind] at h
      injection h with h2
      subst h2
      exact ⟨r, rfl, rfl, rfl⟩
  · intro tbl parent name md h
    unfold db.Search at h
    cases hfind : tbl.find?
        (fun r => searchWhere (dbSearchArgs parent name) r.name r.parent) with
    | none => rw [hfind] at h; exact absurd h (by simp)
    | some r =>
      rw [hfind] at h
      cases h
      exact ⟨r, rfl, rfl, rfl⟩
  · intro r hne hswap
    exact hne hswap.symm

/-- A legacy-client row with distinct stored parent and type codes. -/
def c4SwapRow : db.Row :=
  { inode := 2, name := "y", url := "", size := 0, mode := 420, parent := 3,
    ftype := 1 }

/-- Witness for C4 on a concrete row whose parent and type codes differ. -/
theorem c4_witness :
    c4SwapRow.parent ≠ c4SwapRow.ftype ∧
    (db.parseRow c4SwapRow).parent ≠ c4SwapRow.parent ∧
    db.Get [c4SwapRow] 2 = .ok (db.parseRow c4SwapRow) :=
  ⟨by decide, c4_parserow_swap.2.2.2 c4SwapRow (by decide), rfl⟩

/-- Structural behaviour of fillNLink: inode and type are untouched and NLink
is set from the type and the child-folder count. -/
theorem fillNLink_fields (tbl : sqlite.Table) (md : sqlite.Metadata) :
    (sqlite.fillNLink tbl md).inode = md.inode ∧
    (sqlite.fillNLink tbl md).ftype = md.ftype ∧
    (sqlite.fillNLink tbl md).nlink =
      (if md.ftype = sqlite.DrvFile then 1
       else (sqlite.childFolderCount tbl md.inode : Int) + 2) := by
  unfold sqlite.fillNLink
  by_cases h : md.ftype = sqlite.DrvFile <;> simp [h]

/-- Claim C3: every entry returned by Get or GetChildren of the sqlite client
carries NLink 1 when its type is FILE and NLink 2 plus the number of rows
whose parent is the entry and whose type is FOLDER when its type is FOLDER;
and a directory just created by AddDirectory is returned with NLink 2. -/
theorem c3_nlink_derivation :
    (∀ (tbl : sqlite.Table) (i : Int) (md : sqlite.Metadata),
        sqlite.Get tbl i = .ok md →
        (md.ftype = sqlite.DrvFile → md.nlink = 1) ∧
        (md.ftype = sqlite.DrvFolder →
          md.nlink = (sqlite.childFolderCount tbl md.inode : Int) + 2)) ∧
    (∀ (tbl : sqlite.Table) (parent : Int) (l : List sqlite.Metadata)
        (md : sqlite.Metadata),
        sqlite.GetChildren tbl parent = .ok l → md ∈ l →
        (md.ftype = sqlite.DrvFile → md.nlink = 1) ∧
        (md.ftype = sqlite.DrvFolder →
          md.nlink = (sqlite.childFolderCount tbl md.inode : Int) + 2)) ∧
    (∀ (tbl tbl2 : sqlite.Table) (parent : Int) (name : String) (mode : Int)
        (md : sqlite.Metadata),
        sqlite.AddDirectory tbl parent name mode = .ok (tbl2, md) →
        md.nlink = 2) := by
  refine ⟨?_, ?_, ?_⟩
  · intro tbl i md h
    unfold sqlite.Get at h
    cases hfind : tbl.find? (fun r => decide (r.inode = i)) with
    | none => rw [hfind] at h; exact absurd h (by simp)
    | some r =>
      rw [hfind] at h
      injection h with h2
      subst h2
      have hf := fillNLink_fields tbl (sqlite.parseRow r)
      refine ⟨fun hty => ?_, fun hty => ?_⟩
      · rw [hf.2.2, if_pos (hf.2.1 ▸ hty)]
      · rw [hf.2.2, if_neg ?_, hf.1]
        rw [hf.2.1] at hty
        rw [hty]
        decide
  · intro tbl parent l md hl hmem
    unfold sqlite.GetChildren at hl
    injection hl with hl2
    subst hl2
    rcases List.mem_map.mp hmem with ⟨r, hr, hmd⟩
    subst hmd
    have hf := fillNLink_fields tbl (sqlite.parseRow r)
    refine ⟨fun hty => ?_, fun hty => ?_⟩
    · rw [hf.2.2, if_pos (hf.2.1 ▸ hty)]
    · rw [hf.2.2, if_neg ?_, hf.1]
      rw [hf.2.1] at hty
      rw [hty]
      decide
  · intro tbl tbl2 parent name mode md h
    unfold sqlite.AddDirectory at h
    by_cases hdup : sqlite.hasDup tbl name parent
    · rw [if_pos hdup] at h
      exact absurd h (by simp)
    · rw [if_neg hdup] at h
      injection h with h2
      injection h2 with ha hb
      rw [← hb]

/-- A concrete catalog: the root, one subfolder and one file under the root. -/
def c3Tbl : sqlite.Table :=
  [sqliteRootRow,
   { inode := 2, name := "d", url := "", size := 0, mode := 493, parent := 1,
     ftype := sqlite.DrvFolder, hash := "" },
   { inode := 3, name := "f", url := "dropbox://f.bin", size := 0, mode := 420,
     parent := 1, ftype := sqlite.DrvFile, hash := "h" }]

/-- The metadata Get returns for the root of c3Tbl: one child folder, so
NLink 3. -/
def c3Md : sqlite.Metadata :=
  { inode := 1, name := "", url := "", size := 0, mode := 493, parent := 0,
    ftype := sqlite.DrvFolder, hash := "", nlink := 3 }

/-- Witness for C3: Get on the root of the concrete catalog returns a folder
entry whose NLink is 2 plus its one child folder. -/
theorem c3_witness :
    sqlite.Get c3Tbl 1 = .ok c3Md ∧ c3Md.ftype = sqlite.DrvFolder ∧
    c3Md.nlink = (sqlite.childFolderCount c3Tbl c3Md.inode : Int) + 2 :=
  ⟨rfl, rfl, (c3_nlink_derivation.1 c3Tbl 1 c3Md rfl).2 rfl⟩

/-- Claim C5 as amended: a Search or Get that matches no row returns exactly
NOT_FOUND; an AddDirectory, CreateFile or Insert whose (name, parent) pair
duplicates an existing row fails, but its uniqueness violation is wrapped by
fmt.Errorf into a generic query error, which is never the CONFLICT kind. -/
theorem c5_lookup_and_conflict_errors :
    (∀ (tbl : sqlite.Table) (parent : Int) (name : String),
        (∀ r ∈ tbl, ¬(r.name = name ∧ r.parent = parent)) →
        sqlite.Search tbl parent name = .error .notFound) ∧
    (∀ (tbl : sqlite.Table) (i : Int),
        (∀ r ∈ tbl, ¬(r.inode = i)) →
        sqlite.Get tbl i = .error .notFound) ∧
    (∀ (tbl : db.Table) (i : Int),
        (∀ r ∈ tbl, ¬(r.inode = i)) →
        db.Get tbl i = .error .notFound) ∧
    (∀ (tbl : sqlite.Table) (parent : Int) (name : String) (mode : Int),
        (∃ r ∈ tbl, r.name = name ∧ r.parent = parent) →
        sqlite.AddDirectory tbl parent name mode =
          .error (.queryError "couldnt insert directory: UNIQUE constraint failed")) ∧
    (∀ (tbl : sqlite.Table) (parent : Int) (name : String) (mode : Int)
        (url hash : String),
        (∃ r ∈ tbl, r.name = name ∧ r.parent = parent) →
        sqlite.CreateFile tbl parent name mode url hash =
          .error (.queryError "couldnt insert file: UNIQUE constraint failed")) ∧
    (∀ (tbl : sqlite.Table) (md : sqlite.Metadata),
        (∃ r ∈ tbl, r.name = md.name ∧ r.parent = md.parent) →
        sqlite.Insert tbl md =
          .error (.queryError "couldnt insert file: UNIQUE constraint failed")) ∧
    (∀ s : String, DbErr.queryError s ≠ DbErr.conflict) := by
  refine ⟨?_, ?_, ?_, ?_, ?_, ?_, fun s h => by cases h⟩
  · intro tbl parent name h
    unfold sqlite.Search
    have : tbl.find?
        (fun r => searchWhere (sqliteSearchArgs parent name) r.name r.parent) = none := by
      rw [List.find?_eq_none]
      intro r hr
      simp only [searchWhere, sqliteSearchArgs, matchesNameCol, matchesParentCol,
        Bool.and_eq_true, decide_eq_true_eq]
      intro hc
      exact h r hr ⟨hc.1.symm, hc.2.symm⟩
    rw [this]
  · intro tbl i h
    unfold sqlite.Get
    have : tbl.find? (fun r => decide (r.inode = i)) = none := by
      rw [List.find?_eq_none]
      intro r hr
      simpa using h r hr
    rw [this]
  · intro tbl i h
    unfold db.Get
    have : tbl.find? (fun r => decide (r.inode = i)) = none := by
      rw [List.find?_eq_none]
      intro r hr
      simpa using h r hr
    rw [this]
  · intro tbl parent name mode h
    rcases h with ⟨r, hr, h1, h2⟩
    have hdup : sqlite.hasDup tbl name parent = true :=
      List.any_eq_true.mpr ⟨r, hr, by simp [h1, h2]⟩
    unfold sqlite.AddDirectory
    rw [if_pos hdup]
  · intro tbl parent name mode url hash h
    rcases h with ⟨r, hr, h1, h2⟩
    have hdup : sqlite.hasDup tbl name parent = true :=
      List.any_eq_true.mpr ⟨r, hr, by simp [h1, h2]⟩
    unfold sqlite.CreateFile
    rw [if_pos hdup]
  · intro tbl md h
    rcases h with ⟨r, hr, h1, h2⟩
    have hdup : sqlite.hasDup tbl md.name md.parent = true :=
      List.any_eq_true.mpr ⟨r, hr, by simp [h1, h2]⟩
    unfold sqlite.Insert
    rw [if_pos hdup]

/-- A one-row catalog holding name "a" under parent 1. -/
def c5Tbl : sqlite.Table :=
  [{ inode := 1, name := "a", url := "", size := 0, mode := 493, parent := 1,
     ftype := sqlite.DrvFolder, hash := "" }]

/-- Counterexample for claim C5 as stated: a duplicate (name, parent) insert
does fail, but the error it surfaces is the generic wrapped query error, not
the CONFLICT kind. -/
theorem c5_counterexample :
    sqlite.AddDirectory c5Tbl 1 "a" 493 =
      .error (.queryError "couldnt insert directory: UNIQUE constraint failed") ∧
    decide (DbErr.queryError "couldnt insert directory: UNIQUE constraint failed" =
      DbErr.conflict) = false :=
  ⟨rfl, by decide⟩

/-- Witness for C5: a missed lookup and a duplicate insert on the concrete
catalog. -/
theorem c5_witness :
    sqlite.Search c5Tbl 2 "zz" = .error .notFound ∧
    sqlite.Get c5Tbl 9 = .error .notFound ∧
    sqlite.AddDirectory c5Tbl 1 "a" 493 =
      .error (.queryError "couldnt insert directory: UNIQUE constraint failed") :=
  ⟨c5_lookup_and_conflict_errors.1 c5Tbl 2 "zz" (by decide),
   c5_lookup_and_conflict_errors.2.1 c5Tbl 9 (by decide),
   c5_lookup_and_conflict_errors.2.2.2.1 c5Tbl 1 "a" 493 (by decide)⟩

/-- A reachable drive holding the catalog object resolves its metadata. -/
theorem getmeta_of_holds (d : DriveModel) (h1 : d.reachable = true)
    (h2 : holdsDB d = true) :
    ∃ f, GetFileMetadata d DatabaseFileName = .ok f := by
  unfold holdsDB at h2
  have hsome : (d.files.find? (fun f => f.rname = DatabaseFileName)).isSome := by
    rw [List.find?_isSome]
    rcases List.any_eq_true.mp h2 with ⟨f, hf, hp⟩
    exact ⟨f, hf, hp⟩
  rcases Option.isSome_iff_exists.mp hsome with ⟨g, hg⟩
  refine ⟨g, ?_⟩
  unfold GetFileMetadata
  rw [if_neg (by simp [h1]), hg]

/-- A reachable drive without the catalog object reports NOT_FOUND. -/
theorem getmeta_notfound (d : DriveModel) (h1 : d.reachable = true)
    (h2 : holdsDB d = false) :
    GetFileMetadata d DatabaseFileName = .error .notFound := by
  unfold GetFileMetadata
  rw [if_neg (by simp [h1])]
  have : d.files.find? (fun f => f.rname = DatabaseFileName) = none := by
    rw [List.find?_eq_none]
    intro f hf hp
    have htrue : holdsDB d = true := List.any_eq_true.mpr ⟨f, hf, hp⟩
    rw [h2] at htrue
    exact absurd htrue (by simp)
  rw [this]

/-- Claim C6 as amended: catalog discovery probes each drive for
cloudstash.db; when no reachable drive holds it the result is exactly
NOT_FOUND, and when the head of the drive list is reachable and holds it, the
head is selected at once, whatever the rest of the list holds (so the first
holder in list order wins, not the newest). -/
theorem c6_find_db_drive :
    DatabaseFileName = "cloudstash.db" ∧
    (∀ drives : List DriveModel,
        (∀ d ∈ drives, d.reachable = true ∧ holdsDB d = false) →
        findDBDrive drives = .error .notFound) ∧
    (∀ (d : DriveModel) (rest : List DriveModel),
        d.reachable = true → holdsDB d = true →
        findDBDrive (d :: rest) = .ok d) ∧
    (∀ (d : DriveModel) (rest : List DriveModel),
        d.reachable = true → holdsDB d = false →
        findDBDrive (d :: rest) = findDBDrive rest) := by
  refine ⟨rfl, ?_, ?_, ?_⟩
  · intro drives h
    induction drives with
    | nil => rfl
    | cons d rest ih =>
      have hd := h d (List.mem_cons_self d rest)
      have hg := getmeta_notfound d hd.1 hd.2
      have hrec : findDBDrive (d :: rest) = findDBDrive rest := by
        simp only [findDBDrive, hg]
      rw [hrec]
      exact ih (fun d2 hd2 => h d2 (List.mem_cons_of_mem d hd2))
  · intro d rest h1 h2
    rcases getmeta_of_holds d h1 h2 with ⟨f, hf⟩
    simp only [findDBDrive, hf]
  · intro d rest h1 h2
    have hg := getmeta_notfound d h1 h2
    simp only [findDBDrive, hg]

/-- A reachable drive holding no objects at all. -/
def c6Empty : DriveModel :=
  { providerName := "dropbox", files := [], reachable := true }

/-- A drive holding an older copy of the catalog object. -/
def c6Old : DriveModel :=
  { providerName := "dropbox",
    files := [{ rname := "cloudstash.db", rsize := 10, rhash := "h1", rmtime := 100 }],
    reachable := true }

/-- A drive holding a newer copy of the catalog object. -/
def c6New : DriveModel :=
  { providerName := "gdrive",
    files := [{ rname := "cloudstash.db", rsize := 11, rhash := "h2", rmtime := 200 }],
    reachable := true }

/-- Counterexample for claim C6 as stated: with two drives both holding
cloudstash.db, findDBDrive selects the first one in list order even though the
second holds the newer copy by backend metadata. -/
theorem c6_counterexample :
    findDBDrive [c6Old, c6New] = .ok c6Old ∧
    holdsDB c6New = true ∧
    dbMTime c6Old < dbMTime c6New :=
  ⟨rfl, rfl, by decide⟩

/-- Witness for C6: discovery over one empty drive reports NOT_FOUND, and a
holder at the head of the list is selected. -/
theorem c6_witness :
    findDBDrive [c6Empty] = .error .notFound ∧
    findDBDrive (c6Old :: [c6New]) = .ok c6Old :=
  ⟨c6_find_db_drive.2.1 [c6Empty] (by decide),
   c6_find_db_drive.2.2.1 c6Old [c6New] rfl rfl⟩
